import Mathlib

/-!
Verification of the rtp_midi_netsync netsync codec.

The repository ships the C interface (`include/rtp_midi_netsync.h`) and its C
test harnesses; the codec implementation behind that interface is not part of
the source tree here, so the event model, the wire codec and the boundary
adapter are modelled from the specification (sections 3, 4 and 7 of spec.md).
Bytes are natural numbers; byte buffers are lists; the caller-provided output
buffer of the foreign interface is an explicit list threaded through the
encode call.
-/

namespace RtpMidiNetsync

/-! ## Event model -/

/-- The event structure of `include/rtp_midi_netsync.h`: an enumeration-sized
tag (`Int`, since the C enum can carry values outside the enumerated set), a
fixed 8-byte data array and the count of meaningful bytes. -/
structure VlcRtpmidiEvent where
  event_type : Int
  data : List Nat
  data_len : Nat
  deriving DecidableEq, Repr

/-- Modelled from the spec: the required payload length per variant (spec 3
and 4.1) - 2 for MtcQuarter (tag 0), 4 for MtcFull (tag 1), 0 for MmcStop
(tag 2), 0 for MmcPlay (tag 3), 4 for MmcLocate (tag 4); tags outside the
enumerated set have no required length. The codec implementation behind the
FFI is absent from src. -/
def required_data_len (t : Int) : Option Nat :=
  if t = 0 then some 2
  else if t = 1 then some 4
  else if t = 2 then some 0
  else if t = 3 then some 0
  else if t = 4 then some 4
  else none

/-- Modelled from the spec: the validation predicate of spec 4.1 - for each
variant the payload length must equal the variant's required length; a tag
outside the enumerated set is never well formed. -/
def is_well_formed (e : VlcRtpmidiEvent) : Bool :=
  match required_data_len e.event_type with
  | some n => e.data_len == n
  | none => false

/-- Modelled from the spec: event constructor of the C interface - populates
the tag, the two payload bytes and `data_len = 2`, with no clamping (spec 4.1
and the harness `test_vlc_rtpmidi_create_mtc_quarter_event`). -/
def vlc_rtpmidi_create_mtc_quarter_event (msg_type value : Nat) : VlcRtpmidiEvent :=
  ⟨0, [msg_type, value, 0, 0, 0, 0, 0, 0], 2⟩

/-- Modelled from the spec: event constructor for MTC Full Frame - four time
bytes written unmodified, `data_len = 4`. -/
def vlc_rtpmidi_create_mtc_full_event (hour minute second frame : Nat) : VlcRtpmidiEvent :=
  ⟨1, [hour, minute, second, frame, 0, 0, 0, 0], 4⟩

/-- Modelled from the spec: event constructor for MMC Stop - no payload. -/
def vlc_rtpmidi_create_mmc_stop_event : VlcRtpmidiEvent :=
  ⟨2, [0, 0, 0, 0, 0, 0, 0, 0], 0⟩

/-- Modelled from the spec: event constructor for MMC Play - no payload. -/
def vlc_rtpmidi_create_mmc_play_event : VlcRtpmidiEvent :=
  ⟨3, [0, 0, 0, 0, 0, 0, 0, 0], 0⟩

/-- Modelled from the spec: event constructor for MMC Locate - four time
bytes written unmodified, `data_len = 4`. -/
def vlc_rtpmidi_create_mmc_locate_event (hour minute second frame : Nat) : VlcRtpmidiEvent :=
  ⟨4, [hour, minute, second, frame, 0, 0, 0, 0], 4⟩

/-! ## Wire codec -/

/-- Modelled from the spec: the encoded payload of a well-formed event, per
the framing rule of spec 4.2.1 (header byte `(0xA <<< 4) ||| N`) and the body
table of spec 4.2.2. The MTC Quarter body byte is
`((msg_type &&& 0x07) <<< 4) ||| (value &&& 0x0F)`, written here in the
equivalent arithmetic form `(msg_type % 8) * 16 + value % 16`; the four time
bytes of MtcFull and MmcLocate are written unmodified. A tag outside the
enumerated set has no encoding (the entry point rejects it first). -/
def encode_payload (e : VlcRtpmidiEvent) : List Nat :=
  if e.event_type = 0 then
    [0xA3, 0xF1, (e.data.getD 0 0 % 8) * 16 + e.data.getD 1 0 % 16]
  else if e.event_type = 1 then
    [0xAB, 0xF0, 0x7F, 0x7F, 0x01, 0x01,
      e.data.getD 0 0, e.data.getD 1 0, e.data.getD 2 0, e.data.getD 3 0, 0xF7]
  else if e.event_type = 2 then
    [0xA7, 0xF0, 0x7F, 0x7F, 0x06, 0x01, 0xF7]
  else if e.event_type = 3 then
    [0xA7, 0xF0, 0x7F, 0x7F, 0x06, 0x02, 0xF7]
  else if e.event_type = 4 then
    [0xAD, 0xF0, 0x7F, 0x7F, 0x06, 0x44, 0x06, 0x01,
      e.data.getD 0 0, e.data.getD 1 0, e.data.getD 2 0, e.data.getD 3 0, 0xF7]
  else []

/-- Modelled from the spec: the master (encode) flow of the foreign interface
(spec 4.2.3) on a caller-provided buffer, null pointers aside. Returns the
error code, the buffer after the call, and the out-size. Validation comes
first (`InvalidEventType` = 5); an undersized buffer gives `BufferTooSmall`
= 3 with out-size 0 and the buffer untouched; on success (code 0) the first
`N` bytes of the buffer hold the payload and the bytes beyond `N` are
untouched. -/
def vlc_rtpmidi_master_netsync_flow_ffi (e : VlcRtpmidiEvent) (buffer : List Nat) :
    Int × List Nat × Nat :=
  if is_well_formed e then
    if buffer.length < (encode_payload e).length then (3, buffer, 0)
    else (0, encode_payload e ++ buffer.drop (encode_payload e).length,
      (encode_payload e).length)
  else (5, buffer, 0)

/-- Modelled from the spec: the decode procedure of spec 4.2.4. Steps 1-3
check the length, the `0xA` high-nibble sentinel, and that the header length
field equals the supplied length; step 4 dispatches on the first body byte;
step 5 requires every literal byte, and forbids accepting any payload that
would not byte-compare equal to the re-encoding of the result - for the MTC
Quarter body byte this means its high bit must be clear, since the encoder
can never produce a body byte `>= 0x80`. High and low nibbles are written in
the arithmetic forms `/ 16` and `% 16`, and `(b >>> 4) &&& 0x07` as
`b / 16 % 8`. -/
def slave_decode (p : List Nat) : Option VlcRtpmidiEvent :=
  if p.length < 2 then none
  else if p.getD 0 0 / 16 ≠ 0xA then none
  else if p.getD 0 0 % 16 ≠ p.length then none
  else if p.getD 1 0 = 0xF1 then
    if p.length = 3 ∧ p.getD 2 0 < 0x80 then
      some ⟨0, [p.getD 2 0 / 16 % 8, p.getD 2 0 % 16, 0, 0, 0, 0, 0, 0], 2⟩
    else none
  else if p.getD 1 0 = 0xF0 then
    if p.getD 2 0 = 0x7F ∧ p.getD 3 0 = 0x7F then
      if p.getD 4 0 = 0x01 then
        if p.length = 11 ∧ p.getD 5 0 = 0x01 ∧ p.getD 10 0 = 0xF7 then
          some ⟨1, [p.getD 6 0, p.getD 7 0, p.getD 8 0, p.getD 9 0, 0, 0, 0, 0], 4⟩
        else none
      else if p.getD 4 0 = 0x06 then
        if p.getD 5 0 = 0x01 then
          if p.length = 7 ∧ p.getD 6 0 = 0xF7 then
            some ⟨2, [0, 0, 0, 0, 0, 0, 0, 0], 0⟩
          else none
        else if p.getD 5 0 = 0x02 then
          if p.length = 7 ∧ p.getD 6 0 = 0xF7 then
            some ⟨3, [0, 0, 0, 0, 0, 0, 0, 0], 0⟩
          else none
        else if p.getD 5 0 = 0x44 then
          if p.length = 13 ∧ p.getD 6 0 = 0x06 ∧ p.getD 7 0 = 0x01 ∧ p.getD 12 0 = 0xF7 then
            some ⟨4, [p.getD 8 0, p.getD 9 0, p.getD 10 0, p.getD 11 0, 0, 0, 0, 0], 4⟩
          else none
        else none
      else none
    else none
  else none

/-- Modelled from the spec: the slave (decode) flow of the foreign interface
(spec 4.2.4), null pointers aside. Returns the error code and, on success,
the decoded event; any rejection is `InvalidSlaveEvent` = 2. -/
def vlc_rtpmidi_slave_netsync_flow_ffi (buffer : List Nat) :
    Int × Option VlcRtpmidiEvent :=
  match slave_decode buffer with
  | some e => (0, some e)
  | none => (2, none)

/-! ## Boundary adapter -/

/-- Modelled from the spec: `describe_error` of spec 4.3 - a fixed string per
defined code 0..5, `"Unknown error"` for everything else. -/
def vlc_rtpmidi_get_error_message (code : Int) : String :=
  if code = 0 then "Success"
  else if code = 1 then "Invalid master event"
  else if code = 2 then "Invalid slave event"
  else if code = 3 then "Buffer too small"
  else if code = 4 then "Null pointer"
  else if code = 5 then "Invalid event type"
  else "Unknown error"

/-! ## Legacy one-byte header pair -/

/-- The header record of the legacy `FFI_parse_header` / `FFI_serialize_header`
pair exercised by `test_header_ffi.c`: a flags nibble and a length nibble. -/
structure FFIPayloadHeader where
  flags : Nat
  len : Nat
  deriving DecidableEq, Repr

/-- Modelled from the spec: the trivial header parser of the legacy pair
(spec 9, framing of spec 4.2.1) - the flags field is the high nibble of the
first byte and the len field its low nibble. -/
def FFI_parse_header (b : Nat) : FFIPayloadHeader :=
  ⟨b / 16, b % 16⟩

/-- Modelled from the spec: the trivial header serializer of the legacy pair -
recomposes the byte from the two nibbles. -/
def FFI_serialize_header (h : FFIPayloadHeader) : Nat :=
  h.flags * 16 + h.len

/-! ## Helper lemmas -/


theorem exists_cons_of_length (p : List Nat) (n : Nat) (h : p.length = n + 1) :
    ∃ a q, p = a :: q ∧ q.length = n := by
  cases p with
  | nil => simp at h
  | cons a q => exact ⟨a, q, rfl, by simpa using h⟩

theorem exists_list_three (p : List Nat) (h : p.length = 3) :
    ∃ b0 b1 b2, p = [b0, b1, b2] := by
  obtain ⟨b0, p, rfl, g1⟩ := exists_cons_of_length p 2 h
  obtain ⟨b1, p, rfl, g2⟩ := exists_cons_of_length p 1 g1
  obtain ⟨b2, p, rfl, g3⟩ := exists_cons_of_length p 0 g2
  rw [List.length_eq_zero] at g3
  subst g3
  exact ⟨b0, b1, b2, rfl⟩

theorem exists_list_seven (p : List Nat) (h : p.length = 7) :
    ∃ b0 b1 b2 b3 b4 b5 b6, p = [b0, b1, b2, b3, b4, b5, b6] := by
  obtain ⟨b0, p, rfl, g1⟩ := exists_cons_of_length p 6 h
  obtain ⟨b1, p, rfl, g2⟩ := exists_cons_of_length p 5 g1
  obtain ⟨b2, p, rfl, g3⟩ := exists_cons_of_length p 4 g2
  obtain ⟨b3, p, rfl, g4⟩ := exists_cons_of_length p 3 g3
  obtain ⟨b4, p, rfl, g5⟩ := exists_cons_of_length p 2 g4
  obtain ⟨b5, p, rfl, g6⟩ := exists_cons_of_length p 1 g5
  obtain ⟨b6, p, rfl, g7⟩ := exists_cons_of_length p 0 g6
  rw [List.length_eq_zero] at g7
  subst g7
  exact ⟨b0, b1, b2, b3, b4, b5, b6, rfl⟩

theorem exists_list_eleven (p : List Nat) (h : p.length = 11) :
    ∃ b0 b1 b2 b3 b4 b5 b6 b7 b8 b9 b10,
      p = [b0, b1, b2, b3, b4, b5, b6, b7, b8, b9, b10] := by
  obtain ⟨b0, p, rfl, g1⟩ := exists_cons_of_length p 10 h
  obtain ⟨b1, p, rfl, g2⟩ := exists_cons_of_length p 9 g1
  obtain ⟨b2, p, rfl, g3⟩ := exists_cons_of_length p 8 g2
  obtain ⟨b3, p, rfl, g4⟩ := exists_cons_of_length p 7 g3
  obtain ⟨b4, p, rfl, g5⟩ := exists_cons_of_length p 6 g4
  obtain ⟨b5, p, rfl, g6⟩ := exists_cons_of_length p 5 g5
  obtain ⟨b6, p, rfl, g7⟩ := exists_cons_of_length p 4 g6
  obtain ⟨b7, p, rfl, g8⟩ := exists_cons_of_length p 3 g7
  obtain ⟨b8, p, rfl, g9⟩ := exists_cons_of_length p 2 g8
  obtain ⟨b9, p, rfl, g10⟩ := exists_cons_of_length p 1 g9
  obtain ⟨b10, p, rfl, g11⟩ := exists_cons_of_length p 0 g10
  rw [List.length_eq_zero] at g11
  subst g11
  exact ⟨b0, b1, b2, b3, b4, b5, b6, b7, b8, b9, b10, rfl⟩

theorem exists_list_thirteen (p : List Nat) (h : p.length = 13) :
    ∃ b0 b1 b2 b3 b4 b5 b6 b7 b8 b9 b10 b11 b12,
      p = [b0, b1, b2, b3, b4, b5, b6, b7, b8, b9, b10, b11, b12] := by
  obtain ⟨b0, p, rfl, g1⟩ := exists_cons_of_length p 12 h
  obtain ⟨b1, p, rfl, g2⟩ := exists_cons_of_length p 11 g1
  obtain ⟨b2, p, rfl, g3⟩ := exists_cons_of_length p 10 g2
  obtain ⟨b3, p, rfl, g4⟩ := exists_cons_of_length p 9 g3
  obtain ⟨b4, p, rfl, g5⟩ := exists_cons_of_length p 8 g4
  obtain ⟨b5, p, rfl, g6⟩ := exists_cons_of_length p 7 g5
  obtain ⟨b6, p, rfl, g7⟩ := exists_cons_of_length p 6 g6
  obtain ⟨b7, p, rfl, g8⟩ := exists_cons_of_length p 5 g7
  obtain ⟨b8, p, rfl, g9⟩ := exists_cons_of_length p 4 g8
  obtain ⟨b9, p, rfl, g10⟩ := exists_cons_of_length p 3 g9
  obtain ⟨b10, p, rfl, g11⟩ := exists_cons_of_length p 2 g10
  obtain ⟨b11, p, rfl, g12⟩ := exists_cons_of_length p 1 g11
  obtain ⟨b12, p, rfl, g13⟩ := exists_cons_of_length p 0 g12
  rw [List.length_eq_zero] at g13
  subst g13
  exact ⟨b0, b1, b2, b3, b4, b5, b6, b7, b8, b9, b10, b11, b12, rfl⟩

theorem wellformed_cases (e : VlcRtpmidiEvent) (h : is_well_formed e = true) :
    e.event_type = 0 ∧ e.data_len = 2 ∨ e.event_type = 1 ∧ e.data_len = 4 ∨
    e.event_type = 2 ∧ e.data_len = 0 ∨ e.event_type = 3 ∧ e.data_len = 0 ∨
    e.event_type = 4 ∧ e.data_len = 4 := by
  unfold is_well_formed required_data_len at h
  split_ifs at h <;> simp_all

theorem slave_decode_canonical (p : List Nat) (e : VlcRtpmidiEvent)
    (h : slave_decode p = some e) :
    is_well_formed e = true ∧ encode_payload e = p := by
  unfold slave_decode at h
  by_cases h1 : p.length < 2
  · rw [if_pos h1] at h; cases h
  rw [if_neg h1] at h
  by_cases h2 : p.getD 0 0 / 16 ≠ 10
  · rw [if_pos h2] at h; cases h
  rw [if_neg h2] at h
  by_cases h3 : p.getD 0 0 % 16 ≠ p.length
  · rw [if_pos h3] at h; cases h
  rw [if_neg h3] at h
  push_neg at h2 h3
  by_cases h4 : p.getD 1 0 = 0xF1
  · rw [if_pos h4] at h
    by_cases h5 : p.length = 3 ∧ p.getD 2 0 < 0x80
    · rw [if_pos h5] at h
      obtain ⟨hl, hc⟩ := h5
      obtain ⟨b0, b1, b2, rfl⟩ := exists_list_three p hl
      injection h with h
      subst h
      refine ⟨rfl, ?_⟩
      simp only [List.getD_cons_zero, List.getD_cons_succ, List.length_cons,
        List.length_nil] at h2 h3 h4 hc
      simp only [encode_payload, if_pos, List.getD_cons_zero, List.getD_cons_succ]
      norm_num
      omega
    · rw [if_neg h5] at h; cases h
  rw [if_neg h4] at h
  by_cases h6 : p.getD 1 0 = 0xF0
  · rw [if_pos h6] at h
    by_cases h7 : p.getD 2 0 = 0x7F ∧ p.getD 3 0 = 0x7F
    · rw [if_pos h7] at h
      obtain ⟨h7a, h7b⟩ := h7
      by_cases h8 : p.getD 4 0 = 0x01
      · rw [if_pos h8] at h
        by_cases h9 : p.length = 11 ∧ p.getD 5 0 = 0x01 ∧ p.getD 10 0 = 0xF7
        · rw [if_pos h9] at h
          obtain ⟨hl, h9a, h9b⟩ := h9
          obtain ⟨b0, b1, b2, b3, b4, b5, b6, b7, b8, b9, b10, rfl⟩ :=
            exists_list_eleven p hl
          injection h with h
          subst h
          refine ⟨rfl, ?_⟩
          simp only [List.getD_cons_zero, List.getD_cons_succ, List.length_cons,
            List.length_nil] at h2 h3 h6 h7a h7b h8 h9a h9b
          simp only [encode_payload, if_pos, List.getD_cons_zero, List.getD_cons_succ]
          norm_num
          omega
        · rw [if_neg h9] at h; cases h
      rw [if_neg h8] at h
      by_cases h10 : p.getD 4 0 = 0x06
      · rw [if_pos h10] at h
        by_cases h11 : p.getD 5 0 = 0x01
        · rw [if_pos h11] at h
          by_cases h12 : p.length = 7 ∧ p.getD 6 0 = 0xF7
          · rw [if_pos h12] at h
            obtain ⟨hl, h12a⟩ := h12
            obtain ⟨b0, b1, b2, b3, b4, b5, b6, rfl⟩ := exists_list_seven p hl
            injection h with h
            subst h
            refine ⟨rfl, ?_⟩
            simp only [List.getD_cons_zero, List.getD_cons_succ, List.length_cons,
              List.length_nil] at h2 h3 h6 h7a h7b h10 h11 h12a
            simp only [encode_payload, if_pos, List.getD_cons_zero, List.getD_cons_succ]
            norm_num
            omega
          · rw [if_neg h12] at h; cases h
        rw [if_neg h11] at h
        by_cases h13 : p.getD 5 0 = 0x02
        · rw [if_pos h13] at h
          by_cases h14 : p.length = 7 ∧ p.getD 6 0 = 0xF7
          · rw [if_pos h14] at h
            obtain ⟨hl, h14a⟩ := h14
            obtain ⟨b0, b1, b2, b3, b4, b5, b6, rfl⟩ := exists_list_seven p hl
            injection h with h
            subst h
            refine ⟨rfl, ?_⟩
            simp only [List.getD_cons_zero, List.getD_cons_succ, List.length_cons,
              List.length_nil] at h2 h3 h6 h7a h7b h10 h13 h14a
            simp only [encode_payload, if_pos, List.getD_cons_zero, List.getD_cons_succ]
            norm_num
            omega
          · rw [if_neg h14] at h; cases h
        rw [if_neg h13] at h
        by_cases h15 : p.getD 5 0 = 0x44
        · rw [if_pos h15] at h
          by_cases h16 : p.length = 13 ∧ p.getD 6 0 = 0x06 ∧ p.getD 7 0 = 0x01 ∧
              p.getD 12 0 = 0xF7
          · rw [if_pos h16] at h
            obtain ⟨hl, h16a, h16b, h16c⟩ := h16
            obtain ⟨b0, b1, b2, b3, b4, b5, b6, b7, b8, b9, b10, b11, b12, rfl⟩ :=
              exists_list_thirteen p hl
            injection h with h
            subst h
            refine ⟨rfl, ?_⟩
            simp only [List.getD_cons_zero, List.getD_cons_succ, List.length_cons,
              List.length_nil] at h2 h3 h6 h7a h7b h10 h15 h16a h16b h16c
            simp only [encode_payload, if_pos, List.getD_cons_zero, List.getD_cons_succ]
            norm_num
            omega
          · rw [if_neg h16] at h; cases h
        · rw [if_neg h15] at h; cases h
      · rw [if_neg h10] at h; cases h
    · rw [if_neg h7] at h; cases h
  · rw [if_neg h6] at h; cases h

/-! ## Claims -/


/-- C1 (amended): round trip. For every well-formed event whose MTC Quarter
fields, when the tag is MtcQuarter, are within their canonical ranges
(`msg_type <= 7`, `value <= 15`; the time-byte variants are unrestricted over
u8), decoding the encoding succeeds and returns an event equal to the
original in tag, data_len, and every meaningful payload byte. -/
theorem roundtrip_wellformed_events (e : VlcRtpmidiEvent)
    (hw : is_well_formed e = true)
    (hq : e.event_type = 0 → e.data.getD 0 0 < 8 ∧ e.data.getD 1 0 < 16) :
    ∃ d, slave_decode (encode_payload e) = some d ∧
      d.event_type = e.event_type ∧ d.data_len = e.data_len ∧
      ∀ i, i < e.data_len → d.data.getD i 0 = e.data.getD i 0 := by
  rcases wellformed_cases e hw with ⟨ht, hn⟩ | ⟨ht, hn⟩ | ⟨ht, hn⟩ | ⟨ht, hn⟩ | ⟨ht, hn⟩
  · obtain ⟨ha, hb⟩ := hq ht
    simp only [List.getD_eq_getElem?_getD] at ha hb
    have hc : (e.data[0]?.getD 0 % 8) * 16 + e.data[1]?.getD 0 % 16 < 128 := by omega
    refine ⟨⟨0, [e.data.getD 0 0, e.data.getD 1 0, 0, 0, 0, 0, 0, 0], 2⟩,
      ?_, ht.symm, hn.symm, ?_⟩
    · simp [encode_payload, ht, slave_decode, hc, VlcRtpmidiEvent.mk.injEq,
        List.getD_eq_getElem?_getD]
      omega
    · intro i hi
      rw [hn] at hi
      interval_cases i <;> simp
  · refine ⟨⟨1, [e.data.getD 0 0, e.data.getD 1 0, e.data.getD 2 0, e.data.getD 3 0,
        0, 0, 0, 0], 4⟩, ?_, ht.symm, hn.symm, ?_⟩
    · simp [encode_payload, ht, slave_decode]
    · intro i hi
      rw [hn] at hi
      interval_cases i <;> simp
  · refine ⟨⟨2, [0, 0, 0, 0, 0, 0, 0, 0], 0⟩, ?_, ht.symm, hn.symm, ?_⟩
    · simp [encode_payload, ht, slave_decode]
    · intro i hi
      rw [hn] at hi
      exact absurd hi (by omega)
  · refine ⟨⟨3, [0, 0, 0, 0, 0, 0, 0, 0], 0⟩, ?_, ht.symm, hn.symm, ?_⟩
    · simp [encode_payload, ht, slave_decode]
    · intro i hi
      rw [hn] at hi
      exact absurd hi (by omega)
  · refine ⟨⟨4, [e.data.getD 0 0, e.data.getD 1 0, e.data.getD 2 0, e.data.getD 3 0,
        0, 0, 0, 0], 4⟩, ?_, ht.symm, hn.symm, ?_⟩
    · simp [encode_payload, ht, slave_decode]
    · intro i hi
      rw [hn] at hi
      interval_cases i <;> simp

/-- C1 counterexample: the claim as stated fails for arbitrary u8 payload
values. The well-formed event MtcQuarter{msg_type:255, value:255} (the extreme
values of `test_extreme_time_values`) encodes successfully, but decoding the
encoding returns the masked fields 7 and 15: the meaningful payload bytes of
the decoded event differ from the original's. -/
theorem mtc_quarter_roundtrip_masks_extremes :
    is_well_formed (vlc_rtpmidi_create_mtc_quarter_event 255 255) = true ∧
    slave_decode (encode_payload (vlc_rtpmidi_create_mtc_quarter_event 255 255)) =
      some (vlc_rtpmidi_create_mtc_quarter_event 7 15) ∧
    (vlc_rtpmidi_create_mtc_quarter_event 7 15).data.take 2 ≠
      (vlc_rtpmidi_create_mtc_quarter_event 255 255).data.take 2 := by
  decide

/-- Witness for C1 at the concrete event MtcQuarter{3,7} of the round-trip
harness test. -/
theorem roundtrip_wellformed_events_witness :
    ∃ d, slave_decode (encode_payload (vlc_rtpmidi_create_mtc_quarter_event 3 7)) = some d ∧
      d.event_type = (vlc_rtpmidi_create_mtc_quarter_event 3 7).event_type ∧
      d.data_len = (vlc_rtpmidi_create_mtc_quarter_event 3 7).data_len ∧
      ∀ i, i < (vlc_rtpmidi_create_mtc_quarter_event 3 7).data_len →
        d.data.getD i 0 = (vlc_rtpmidi_create_mtc_quarter_event 3 7).data.getD i 0 :=
  roundtrip_wellformed_events (vlc_rtpmidi_create_mtc_quarter_event 3 7)
    (by decide) (fun _ => by decide)

/-- C2: for every well-formed event and sufficient buffer, encode succeeds
with the bytes of the spec 4.2.2 table prefixed by the header byte
`(0xA <<< 4) ||| N`, reports size `N`, and leaves the bytes beyond `N`
untouched; in particular `encode(MtcQuarter{3,7})` is `A3 F1 37` with size 3
and `encode(MmcLocate{2,15,30,10})` is
`AD F0 7F 7F 06 44 06 01 02 0F 1E 0A F7` with size 13. -/
theorem encode_layout (e : VlcRtpmidiEvent) (buf : List Nat)
    (hw : is_well_formed e = true) (hc : (encode_payload e).length ≤ buf.length) :
    vlc_rtpmidi_master_netsync_flow_ffi e buf =
      (0, encode_payload e ++ buf.drop (encode_payload e).length,
        (encode_payload e).length) ∧
    (encode_payload e).getD 0 0 = 0xA * 16 + (encode_payload e).length ∧
    encode_payload (vlc_rtpmidi_create_mtc_quarter_event 3 7) = [0xA3, 0xF1, 0x37] ∧
    (encode_payload (vlc_rtpmidi_create_mtc_quarter_event 3 7)).length = 3 ∧
    encode_payload (vlc_rtpmidi_create_mmc_locate_event 2 15 30 10) =
      [0xAD, 0xF0, 0x7F, 0x7F, 0x06, 0x44, 0x06, 0x01, 0x02, 0x0F, 0x1E, 0x0A, 0xF7] ∧
    (encode_payload (vlc_rtpmidi_create_mmc_locate_event 2 15 30 10)).length = 13 := by
  refine ⟨?_, ?_, by decide, by decide, by decide, by decide⟩
  · simp [vlc_rtpmidi_master_netsync_flow_ffi, hw, Nat.not_lt.mpr hc]
  · rcases wellformed_cases e hw with ⟨ht, _⟩ | ⟨ht, _⟩ | ⟨ht, _⟩ | ⟨ht, _⟩ | ⟨ht, _⟩ <;>
      simp [encode_payload, ht]

/-- Witness for C2 at the MMC Stop event and a 16-byte buffer. -/
theorem encode_layout_witness :
    vlc_rtpmidi_master_netsync_flow_ffi vlc_rtpmidi_create_mmc_stop_event
        (List.replicate 16 0) =
      (0, encode_payload vlc_rtpmidi_create_mmc_stop_event ++
        (List.replicate 16 0).drop
          (encode_payload vlc_rtpmidi_create_mmc_stop_event).length,
        (encode_payload vlc_rtpmidi_create_mmc_stop_event).length) ∧
    (encode_payload vlc_rtpmidi_create_mmc_stop_event).getD 0 0 =
      0xA * 16 + (encode_payload vlc_rtpmidi_create_mmc_stop_event).length ∧
    encode_payload (vlc_rtpmidi_create_mtc_quarter_event 3 7) = [0xA3, 0xF1, 0x37] ∧
    (encode_payload (vlc_rtpmidi_create_mtc_quarter_event 3 7)).length = 3 ∧
    encode_payload (vlc_rtpmidi_create_mmc_locate_event 2 15 30 10) =
      [0xAD, 0xF0, 0x7F, 0x7F, 0x06, 0x44, 0x06, 0x01, 0x02, 0x0F, 0x1E, 0x0A, 0xF7] ∧
    (encode_payload (vlc_rtpmidi_create_mmc_locate_event 2 15 30 10)).length = 13 :=
  encode_layout vlc_rtpmidi_create_mmc_stop_event (List.replicate 16 0)
    (by decide) (by decide)

/-- C3: for every byte sequence on which decode succeeds with event `e`,
`e` is well formed, encoding `e` succeeds, and the encoding is byte-identical
to the accepted payload - decode accepts only canonical payloads. -/
theorem decode_accepts_only_reencodable (p : List Nat) (e : VlcRtpmidiEvent)
    (h : slave_decode p = some e) :
    is_well_formed e = true ∧ encode_payload e = p ∧
    vlc_rtpmidi_master_netsync_flow_ffi e p = (0, p, p.length) := by
  obtain ⟨hw, henc⟩ := slave_decode_canonical p e h
  refine ⟨hw, henc, ?_⟩
  simp [vlc_rtpmidi_master_netsync_flow_ffi, hw, henc]

/-- Witness for C3 at the MMC Play payload `A7 F0 7F 7F 06 02 F7`. -/
theorem decode_accepts_only_reencodable_witness :
    is_well_formed ⟨3, [0, 0, 0, 0, 0, 0, 0, 0], 0⟩ = true ∧
    encode_payload ⟨3, [0, 0, 0, 0, 0, 0, 0, 0], 0⟩ =
      [0xA7, 0xF0, 0x7F, 0x7F, 0x06, 0x02, 0xF7] ∧
    vlc_rtpmidi_master_netsync_flow_ffi ⟨3, [0, 0, 0, 0, 0, 0, 0, 0], 0⟩
        [0xA7, 0xF0, 0x7F, 0x7F, 0x06, 0x02, 0xF7] =
      (0, [0xA7, 0xF0, 0x7F, 0x7F, 0x06, 0x02, 0xF7], 7) :=
  decode_accepts_only_reencodable [0xA7, 0xF0, 0x7F, 0x7F, 0x06, 0x02, 0xF7]
    ⟨3, [0, 0, 0, 0, 0, 0, 0, 0], 0⟩ (by decide)

/-- C4: every payload accepted by decode has length at least 2, a low
header nibble equal to its length and a high header nibble equal to `0xA`;
every input violating one of the three is rejected with
`InvalidSlaveEvent` (code 2). -/
theorem decode_header_invariants (p : List Nat) :
    (∀ e, slave_decode p = some e →
      2 ≤ p.length ∧ p.getD 0 0 % 16 = p.length ∧ p.getD 0 0 / 16 = 0xA) ∧
    (p.length < 2 ∨ p.getD 0 0 % 16 ≠ p.length ∨ p.getD 0 0 / 16 ≠ 0xA →
      vlc_rtpmidi_slave_netsync_flow_ffi p = (2, none)) := by
  constructor
  · intro e h
    unfold slave_decode at h
    by_cases h1 : p.length < 2
    · rw [if_pos h1] at h; cases h
    rw [if_neg h1] at h
    by_cases h2 : p.getD 0 0 / 16 ≠ 10
    · rw [if_pos h2] at h; cases h
    rw [if_neg h2] at h
    by_cases h3 : p.getD 0 0 % 16 ≠ p.length
    · rw [if_pos h3] at h; cases h
    push_neg at h2 h3
    exact ⟨by omega, h3, h2⟩
  · intro hbad
    have hnone : slave_decode p = none := by
      unfold slave_decode
      rcases hbad with hb | hb | hb
      · rw [if_pos hb]
      · by_cases h1 : p.length < 2
        · rw [if_pos h1]
        rw [if_neg h1]
        by_cases h2 : p.getD 0 0 / 16 ≠ 10
        · rw [if_pos h2]
        rw [if_neg h2, if_pos hb]
      · by_cases h1 : p.length < 2
        · rw [if_pos h1]
        rw [if_neg h1, if_pos hb]
    unfold vlc_rtpmidi_slave_netsync_flow_ffi
    rw [hnone]

/-- Witness for C4 at the accepted payload `A3 F1 37` and the rejected
single-byte payload `00`. -/
theorem decode_header_invariants_witness :
    (2 ≤ ([0xA3, 0xF1, 0x37] : List Nat).length ∧
      ([0xA3, 0xF1, 0x37] : List Nat).getD 0 0 % 16 =
        ([0xA3, 0xF1, 0x37] : List Nat).length ∧
      ([0xA3, 0xF1, 0x37] : List Nat).getD 0 0 / 16 = 0xA) ∧
    vlc_rtpmidi_slave_netsync_flow_ffi [0x00] = (2, none) :=
  ⟨(decode_header_invariants [0xA3, 0xF1, 0x37]).1
      ⟨0, [3, 7, 0, 0, 0, 0, 0, 0], 2⟩ (by decide),
    (decode_header_invariants [0x00]).2 (Or.inl (by decide))⟩

/-- C5: encoding a well-formed event into a buffer whose capacity is below
the encoded size returns `BufferTooSmall` (code 3), sets the out-size to 0
and leaves every byte of the caller's buffer unmodified. -/
theorem encode_buffer_too_small (e : VlcRtpmidiEvent) (buf : List Nat)
    (hw : is_well_formed e = true) (hc : buf.length < (encode_payload e).length) :
    vlc_rtpmidi_master_netsync_flow_ffi e buf = (3, buf, 0) := by
  simp [vlc_rtpmidi_master_netsync_flow_ffi, hw, hc]

/-- Witness for C5: MtcFull{1,30,45,15} into a 1-byte buffer, as in
`test_master_flow_buffer_too_small`. -/
theorem encode_buffer_too_small_witness :
    vlc_rtpmidi_master_netsync_flow_ffi (vlc_rtpmidi_create_mtc_full_event 1 30 45 15)
      [0] = (3, [0], 0) :=
  encode_buffer_too_small (vlc_rtpmidi_create_mtc_full_event 1 30 45 15) [0]
    (by decide) (by decide)

/-- C6: for every payload accepted by decode, appending any extra byte or
truncating the last byte makes decode reject with `InvalidSlaveEvent`
(code 2). -/
theorem decode_rejects_extended_truncated (p : List Nat) (e : VlcRtpmidiEvent) (x : Nat)
    (h : slave_decode p = some e) :
    vlc_rtpmidi_slave_netsync_flow_ffi (p ++ [x]) = (2, none) ∧
    vlc_rtpmidi_slave_netsync_flow_ffi p.dropLast = (2, none) := by
  obtain ⟨hw, henc⟩ := slave_decode_canonical p e h
  subst henc
  rcases wellformed_cases e hw with ⟨ht, _⟩ | ⟨ht, _⟩ | ⟨ht, _⟩ | ⟨ht, _⟩ | ⟨ht, _⟩ <;>
    constructor <;>
    simp [encode_payload, ht, slave_decode, vlc_rtpmidi_slave_netsync_flow_ffi,
      List.dropLast]

/-- Witness for C6 at the MTC Full payload of the harness, extended with
`FF` and truncated by one byte. -/
theorem decode_rejects_extended_truncated_witness :
    vlc_rtpmidi_slave_netsync_flow_ffi
      ([0xAB, 0xF0, 0x7F, 0x7F, 0x01, 0x01, 1, 30, 45, 15, 0xF7] ++ [0xFF]) =
      (2, none) ∧
    vlc_rtpmidi_slave_netsync_flow_ffi
      ([0xAB, 0xF0, 0x7F, 0x7F, 0x01, 0x01, 1, 30, 45, 15, 0xF7] : List Nat).dropLast =
      (2, none) :=
  decode_rejects_extended_truncated
    [0xAB, 0xF0, 0x7F, 0x7F, 0x01, 0x01, 1, 30, 45, 15, 0xF7]
    ⟨1, [1, 30, 45, 15, 0, 0, 0, 0], 4⟩ 0xFF (by decide)

/-- C7: encode fails with `InvalidEventType` (code 5) exactly when the
event's tag and data_len are not one of the five valid combinations
(tag 0 with data_len 2, tag 1 with 4, tag 2 with 0, tag 3 with 0, tag 4 with
4) - so a valid tag with the required length never produces that error, and
any other event always does, for every buffer. -/
theorem encode_invalid_event_type_iff (e : VlcRtpmidiEvent) (buf : List Nat) :
    (vlc_rtpmidi_master_netsync_flow_ffi e buf).1 = 5 ↔
    ¬ (e.event_type = 0 ∧ e.data_len = 2 ∨ e.event_type = 1 ∧ e.data_len = 4 ∨
       e.event_type = 2 ∧ e.data_len = 0 ∨ e.event_type = 3 ∧ e.data_len = 0 ∨
       e.event_type = 4 ∧ e.data_len = 4) := by
  constructor
  · intro h hgood
    have hw : is_well_formed e = true := by
      unfold is_well_formed required_data_len
      rcases hgood with ⟨ht, hn⟩ | ⟨ht, hn⟩ | ⟨ht, hn⟩ | ⟨ht, hn⟩ | ⟨ht, hn⟩ <;>
        simp [ht, hn]
    unfold vlc_rtpmidi_master_netsync_flow_ffi at h
    rw [if_pos hw] at h
    by_cases hb : buf.length < (encode_payload e).length
    · rw [if_pos hb] at h
      simp at h
    · rw [if_neg hb] at h
      simp at h
  · intro hbad
    have hw : ¬ is_well_formed e = true := fun hwf => hbad (wellformed_cases e hwf)
    unfold vlc_rtpmidi_master_netsync_flow_ffi
    rw [if_neg hw]

/-- Witness for C7 at an event with tag 7, outside the enumerated set. -/
theorem encode_invalid_event_type_iff_witness :
    (vlc_rtpmidi_master_netsync_flow_ffi ⟨7, [0, 0, 0, 0, 0, 0, 0, 0], 0⟩ []).1 = 5 :=
  (encode_invalid_event_type_iff ⟨7, [0, 0, 0, 0, 0, 0, 0, 0], 0⟩ []).mpr (by decide)

/-- C8: `describe_error` returns a non-empty string for every integer code,
returns the six respective messages on the defined codes 0..5, and returns
the string Unknown error on every out-of-range code; it is a pure function
of the code. -/
theorem get_error_message_spec (code : Int) :
    vlc_rtpmidi_get_error_message code ≠ "" ∧
    (code < 0 ∨ 5 < code → vlc_rtpmidi_get_error_message code = "Unknown error") ∧
    vlc_rtpmidi_get_error_message 0 = "Success" ∧
    vlc_rtpmidi_get_error_message 1 = "Invalid master event" ∧
    vlc_rtpmidi_get_error_message 2 = "Invalid slave event" ∧
    vlc_rtpmidi_get_error_message 3 = "Buffer too small" ∧
    vlc_rtpmidi_get_error_message 4 = "Null pointer" ∧
    vlc_rtpmidi_get_error_message 5 = "Invalid event type" := by
  refine ⟨?_, ?_, by decide, by decide, by decide, by decide, by decide, by decide⟩
  · unfold vlc_rtpmidi_get_error_message
    split_ifs <;> decide
  · intro h
    unfold vlc_rtpmidi_get_error_message
    split_ifs <;> first | rfl | (exfalso; omega)

/-- Witness for C8 at the out-of-range code 999 of the harness. -/
theorem get_error_message_spec_witness :
    vlc_rtpmidi_get_error_message 999 = "Unknown error" :=
  (get_error_message_spec 999).2.1 (Or.inr (by decide))

/-- C9: each of the five event constructors is total, returns its variant's
tag and exact required data_len (2, 4, 0, 0, 4), and stores its arguments
unmodified in order from index 0 of the data array, with no clamping. -/
theorem create_event_helpers_spec (mt v hr mi se fr : Nat) :
    (vlc_rtpmidi_create_mtc_quarter_event mt v).event_type = 0 ∧
    (vlc_rtpmidi_create_mtc_quarter_event mt v).data_len = 2 ∧
    (vlc_rtpmidi_create_mtc_quarter_event mt v).data = [mt, v, 0, 0, 0, 0, 0, 0] ∧
    (vlc_rtpmidi_create_mtc_full_event hr mi se fr).event_type = 1 ∧
    (vlc_rtpmidi_create_mtc_full_event hr mi se fr).data_len = 4 ∧
    (vlc_rtpmidi_create_mtc_full_event hr mi se fr).data = [hr, mi, se, fr, 0, 0, 0, 0] ∧
    vlc_rtpmidi_create_mmc_stop_event.event_type = 2 ∧
    vlc_rtpmidi_create_mmc_stop_event.data_len = 0 ∧
    vlc_rtpmidi_create_mmc_play_event.event_type = 3 ∧
    vlc_rtpmidi_create_mmc_play_event.data_len = 0 ∧
    (vlc_rtpmidi_create_mmc_locate_event hr mi se fr).event_type = 4 ∧
    (vlc_rtpmidi_create_mmc_locate_event hr mi se fr).data_len = 4 ∧
    (vlc_rtpmidi_create_mmc_locate_event hr mi se fr).data = [hr, mi, se, fr, 0, 0, 0, 0] :=
  ⟨rfl, rfl, rfl, rfl, rfl, rfl, rfl, rfl, rfl, rfl, rfl, rfl, rfl⟩

/-- C10: for every byte, the legacy header parser returns the high nibble
as flags and the low nibble as len, and the legacy serializer writes back
exactly the original byte. -/
theorem header_parse_serialize_roundtrip (b : Nat) (hb : b < 256) :
    (FFI_parse_header b).flags = b / 16 ∧ (FFI_parse_header b).len = b % 16 ∧
    (FFI_parse_header b).flags < 16 ∧ (FFI_parse_header b).len < 16 ∧
    FFI_serialize_header (FFI_parse_header b) = b := by
  refine ⟨rfl, rfl, ?_, ?_, ?_⟩ <;>
    simp only [FFI_parse_header, FFI_serialize_header] <;> omega

/-- Witness for C10 at the byte `AF` of `test_header_ffi.c`. -/
theorem header_parse_serialize_roundtrip_witness :
    FFI_serialize_header (FFI_parse_header 0xAF) = 0xAF :=
  (header_parse_serialize_roundtrip 0xAF (by decide)).2.2.2.2

end RtpMidiNetsync
